import Mathlib

/-!
Verification of the Confluence MCP service layer
(`src/unnamed/part_000`, the `ConfluenceService` class, and
`src/packages/confluence/src/index.ts`, the tool-binding layer).

The TypeScript source is shallowly embedded: `string | undefined`
parameters become `Option String`, JavaScript truthiness on strings
(`x || d`, `if (x)`) is made explicit (`undefined` and the empty string
are falsy), TypeScript default parameters apply only to `undefined`,
and every generated-client invocation is reified as a `RemoteCall`
value so that payloads can be inspected.
-/

/- JavaScript string semantics helpers. -/

/-- Truthiness of a `string | undefined` value: `undefined` and `""` are falsy. -/
def jsFalsy : Option String → Bool
  | none => true
  | some s => decide (s = "")

/-- Boolean negation of `jsFalsy`: the JS condition `if (x)` on a `string | undefined`. -/
def jsTruthy (o : Option String) : Bool := !jsFalsy o

/-- The JS expression `x || dflt` on a `string | undefined` value `x`:
falls back to `dflt` when `x` is `undefined` or the empty string. -/
def jsOrStr (o : Option String) (dflt : String) : String :=
  match o with
  | some s => if s = "" then dflt else s
  | none => dflt

/-- `leadsWith hay pat = true` iff `pat` is a prefix of `hay` (character lists). -/
def leadsWith : List Char → List Char → Bool
  | _, [] => true
  | [], _ :: _ => false
  | a :: as, b :: bs => a == b && leadsWith as bs

/-- `hasSub pat hay = true` iff `pat` occurs as a contiguous sublist of `hay`. -/
def hasSub (pat : List Char) : List Char → Bool
  | [] => pat.isEmpty
  | c :: cs => leadsWith (c :: cs) pat || hasSub pat cs

/-- The JS expression `s.includes(pat)`: substring containment. -/
def strIncludes (s pat : String) : Bool := hasSub pat.data s.data

theorem leadsWith_append_self (p r : List Char) : leadsWith (p ++ r) p = true := by
  induction p with
  | nil => cases r <;> rfl
  | cons a as ih => simp [leadsWith, ih]

theorem hasSub_of_leadsWith (pat hay : List Char) (h : leadsWith hay pat = true) :
    hasSub pat hay = true := by
  cases hay with
  | nil =>
    cases pat with
    | nil => rfl
    | cons b bs => simp [leadsWith] at h
  | cons c cs => simp [hasSub, h]

theorem hasSub_append_left (pre pat hay : List Char) (h : hasSub pat hay = true) :
    hasSub pat (pre ++ hay) = true := by
  induction pre with
  | nil => simpa using h
  | cons c cs ih => simp [hasSub, ih]

/-- Any string contains a designated middle segment: if `s = a ++ m ++ b`
at the character-list level, then `s.includes(m)`. -/
theorem strIncludes_of_parts (s m : String) (a b : List Char)
    (h : s.data = a ++ (m.data ++ b)) : strIncludes s m = true := by
  unfold strIncludes
  rw [h]
  exact hasSub_append_left a _ _ (hasSub_of_leadsWith _ _ (leadsWith_append_self m.data b))

/- Data model (the `ConfluenceContent` interface of src/unnamed/part_000). -/

/-- The `space` reference of a content item: `{ key: string }`. -/
structure Space where
  key : String
  deriving Repr, DecidableEq

/-- The `body.storage` shape: `{ value: string, representation: 'storage' }`. -/
structure Storage where
  value : String
  representation : String
  deriving Repr, DecidableEq

/-- The `body` wrapper: `{ storage: {...} }`. -/
structure Body where
  storage : Storage
  deriving Repr, DecidableEq

/-- The `version` shape: `{ number: number, message?: string }`. -/
structure Version where
  number : Int
  message : Option String
  deriving Repr, DecidableEq

/-- One ancestor reference: `{ id: string }`. -/
structure Ancestor where
  id : String
  deriving Repr, DecidableEq

/-- The `ConfluenceContent` interface: optional fields are `Option`-valued,
matching `field?:` in the TypeScript declaration. -/
structure ConfluenceContent where
  id : Option String
  type : String
  title : String
  space : Space
  body : Option Body
  version : Option Version
  ancestors : Option (List Ancestor)
  deriving Repr, DecidableEq

/-- The `container` reference built by `addComment`: `{ id, type }`. -/
structure Container where
  id : String
  type : String
  deriving Repr, DecidableEq

/-- The comment-shaped object built by `addComment` (typed `any` in the source):
`{ type, container, body, ancestors? }`. -/
structure CommentPayload where
  type : String
  container : Container
  body : Body
  ancestors : Option (List Ancestor)
  deriving Repr, DecidableEq

/-- The label payload passed to `ContentLabelsService.addLabels`:
`{ name, prefix }`.  The source field named `prefix` is rendered `pfx` here. -/
structure LabelPayload where
  name : String
  pfx : String
  deriving Repr, DecidableEq

/-- An argument to the generated client's `createContent` operation.
The source passes dynamically-typed objects to one and the same remote
operation; the two shapes actually passed are a `ConfluenceContent`
(from `createContent`) and a comment payload (from `addComment`). -/
inductive CreateArg where
  | page (c : ConfluenceContent)
  | comment (c : CommentPayload)
  deriving Repr, DecidableEq

/-- A reified invocation of the generated Confluence client.  Each
constructor is one remote operation, with the arguments in source order
(`SearchService.search1` takes seven positional arguments; the ones the
service always passes as `undefined` are kept as anonymous slots). -/
inductive RemoteCall where
  | getContentById (contentId : String) (expand : String)
  | search1 (slot1 : Option String) (expand : Option String) (slot3 : Option String)
      (limit : Option String) (start : Option String) (slot6 : Option String) (cql : String)
  | createContent (content : CreateArg)
  | update2 (contentId : String) (content : ConfluenceContent)
  | addLabels (contentId : String) (label : LabelPayload)
  deriving Repr, DecidableEq

/- ConfluenceService methods (src/unnamed/part_000). -/

/-- The expand normalization inside `ConfluenceService.getContent`:
`expandValue = expand || 'body.storage'` and
`finalExpand = expand && !expand.includes('body.storage') ? expand + ',body.storage' : expandValue`. -/
def getContentFinalExpand (expand : Option String) : String :=
  let expandValue := jsOrStr expand "body.storage"
  match expand with
  | some e =>
    if e ≠ "" ∧ strIncludes e "body.storage" = false then e ++ ",body.storage"
    else expandValue
  | none => expandValue

/-- `ConfluenceService.getContent`: calls `ContentResourceService.getContentById`
with the normalized expand. -/
def getContentCall (contentId : String) (expand : Option String) : RemoteCall :=
  .getContentById contentId (getContentFinalExpand expand)

/-- `ConfluenceService.searchContent`: raw CQL pass-through to
`SearchService.search1(undefined, expand, undefined, limit?.toString(), start?.toString(), undefined, cql)`. -/
def searchContentCall (cql : String) (limit start : Option Nat) (expand : Option String) :
    RemoteCall :=
  .search1 none expand none (limit.map toString) (start.map toString) none cql

/-- `ConfluenceService.searchSpaces`: builds
`cql = `type=space AND title ~ "searchText"`` and issues it through
`SearchService.search1` with the same argument layout as `searchContent`. -/
def searchSpacesCall (searchText : String) (limit start : Option Nat)
    (expand : Option String) : RemoteCall :=
  let cql := "type=space AND title ~ \"" ++ searchText ++ "\""
  .search1 none expand none (limit.map toString) (start.map toString) none cql

/-- `ConfluenceService.addLabel(contentId, labelName, prefix = 'global')`:
the TypeScript default parameter substitutes `'global'` exactly when the
argument is `undefined` (an explicitly passed empty string is kept). -/
def addLabelCall (contentId labelName : String) (pfxArg : Option String) : RemoteCall :=
  .addLabels contentId { name := labelName, pfx := pfxArg.getD "global" }

/-- The comment object built by `ConfluenceService.addComment`: fixed
`type: 'comment'`, `container = {id: contentId, type: 'page'}`, storage-wrapped
body; `ancestors` is added only under `if (parentCommentId)`, i.e. only when
`parentCommentId` is present and non-empty. -/
def addCommentPayload (contentId body : String) (parentCommentId : Option String) :
    CommentPayload :=
  { type := "comment"
    container := { id := contentId, type := "page" }
    body := { storage := { value := body, representation := "storage" } }
    ancestors :=
      match parentCommentId with
      | some p => if p = "" then none else some [{ id := p }]
      | none => none }

/-- `ConfluenceService.addComment` delegates to the generic
`ContentResourceService.createContent` remote operation. -/
def addCommentCall (contentId body : String) (parentCommentId : Option String) : RemoteCall :=
  .createContent (.comment (addCommentPayload contentId body parentCommentId))

/- Connection configuration (the module-global `OpenAPI` object of the
generated client, mutated by the `ConfluenceService` constructor). -/

/-- The fields of the module-global `OpenAPI` configuration object that the
constructor assigns: `OpenAPI.BASE`, `OpenAPI.TOKEN`, `OpenAPI.VERSION`. -/
structure OpenAPIConfig where
  BASE : String
  TOKEN : String
  VERSION : String
  deriving Repr, DecidableEq

/-- The `ConfluenceService` constructor as a transition on the module-global
`OpenAPI` state: `if (fullApiUrl) OpenAPI.BASE = fullApiUrl; else if (host)
OpenAPI.BASE = `https://host`; else throw;` then `OpenAPI.TOKEN = token;
OpenAPI.VERSION = '1.0'`.  The constructor stores nothing on the instance,
so its entire effect is the returned global state (or the thrown error). -/
def construct (host : Option String) (token : String) (fullApiUrl : Option String)
    (st : OpenAPIConfig) : Except String OpenAPIConfig :=
  if jsTruthy fullApiUrl then
    .ok { st with BASE := fullApiUrl.getD "", TOKEN := token, VERSION := "1.0" }
  else if jsTruthy host then
    .ok { st with BASE := "https://" ++ host.getD "", TOKEN := token, VERSION := "1.0" }
  else
    .error "Either host or fullApiUrl must be provided"

/-- Whether a construction attempt threw the configuration error. -/
def isConfigError : Except String OpenAPIConfig → Bool
  | .error _ => true
  | .ok _ => false

/-- The three environment variables `ConfluenceService.validateConfig` reads. -/
structure Env where
  CONFLUENCE_API_TOKEN : Option String
  CONFLUENCE_HOST : Option String
  CONFLUENCE_API_BASE_PATH : Option String
  deriving Repr, DecidableEq

/-- `ConfluenceService.validateConfig()`: pushes `'CONFLUENCE_API_TOKEN'`
when `!process.env.CONFLUENCE_API_TOKEN`, then
`'CONFLUENCE_HOST or CONFLUENCE_API_BASE_PATH'` when both
`!process.env.CONFLUENCE_HOST` and `!process.env.CONFLUENCE_API_BASE_PATH`.
A total function: it never throws. -/
def validateConfig (env : Env) : List String :=
  (if jsFalsy env.CONFLUENCE_API_TOKEN then ["CONFLUENCE_API_TOKEN"] else []) ++
  (if jsFalsy env.CONFLUENCE_HOST && jsFalsy env.CONFLUENCE_API_BASE_PATH then
    ["CONFLUENCE_HOST or CONFLUENCE_API_BASE_PATH"] else [])

/- Tool-binding layer (src/packages/confluence/src/index.ts). -/

/-- The uniform result envelope `{ success, data?, error? }` returned by
every gateway operation. -/
structure Envelope (α : Type) where
  success : Bool
  data : Option α
  error : Option String
  deriving Repr

/-- The fields the `confluence_updateContent` handler reads from the fetched
current content (`currentContent.data as { type; title; space }`). -/
structure FetchedData where
  type : String
  title : String
  space : Space
  deriving Repr, DecidableEq

/-- The abort message of the update tool:
``Failed to retrieve content with ID ${contentId}: ${currentContent.error || 'Unknown error'}``. -/
def retrieveFailMsg (contentId : String) (err : Option String) : String :=
  "Failed to retrieve content with ID " ++ contentId ++ ": " ++ jsOrStr err "Unknown error"

/-- Outcome of the `confluence_updateContent` handler after the initial fetch:
either it aborts with a failure envelope (no write is issued), or it issues
exactly the reified write call. -/
inductive UpdateOutcome where
  | aborted (error : String)
  | wrote (call : RemoteCall)
  deriving Repr, DecidableEq

/-- The `confluence_updateContent` tool handler, as a function of the caller
arguments and of the envelope produced by the initial `getContent` fetch.
Aborts when `!currentContent.success || !currentContent.data`; otherwise
builds `updateObj` (`title || contentData.title`; `type` and `space` from
the fetched data; `version` from the caller; `body` added only under
`if (content)`) and issues `updateContent(contentId, updateObj)`, which is
`ContentResourceService.update2`. -/
def updateContentTool (contentId : String) (title content : Option String)
    (version : Int) (versionComment : Option String)
    (fetched : Envelope FetchedData) : UpdateOutcome :=
  match fetched.success, fetched.data with
  | true, some contentData =>
    let updateObj : ConfluenceContent :=
      { id := some contentId
        type := contentData.type
        title := jsOrStr title contentData.title
        space := contentData.space
        body :=
          match content with
          | some c =>
            if c = "" then none
            else some { storage := { value := c, representation := "storage" } }
          | none => none
        version := some { number := version, message := versionComment }
        ancestors := none }
    .wrote (.update2 contentId updateObj)
  | _, _ =>
    .aborted (retrieveFailMsg contentId fetched.error)

/-- The title of the payload an `UpdateOutcome` would write, if any. -/
def outcomeTitle : UpdateOutcome → Option String
  | .wrote (.update2 _ payload) => some payload.title
  | _ => none

/- Shared helper lemmas. -/

theorem hasSub_nil (hay : List Char) : hasSub [] hay = true := by
  cases hay <;> rfl

theorem strIncludes_empty_pat (s : String) : strIncludes s "" = true := by
  unfold strIncludes
  exact hasSub_nil s.data

theorem strIncludes_append_right (a m : String) : strIncludes (a ++ m) m = true := by
  refine strIncludes_of_parts _ _ a.data [] ?_
  simp [String.data_append]

theorem strIncludes_bodyStorage_ne_empty (e : String)
    (h : strIncludes e "body.storage" = true) : e ≠ "" := by
  intro h'
  subst h'
  exact absurd h (by decide)

/-- C3, as stated, fails at the empty expand string: the empty string does
not contain `"body.storage"`, yet the effective expand is `"body.storage"`
(JS `expand || 'body.storage'` treats `""` as absent), not `",body.storage"`. -/
theorem getContent_expand_empty_counterexample :
    strIncludes "" "body.storage" = false ∧
    getContentFinalExpand (some "") = "body.storage" ∧
    getContentFinalExpand (some "") ≠ "" ++ ",body.storage" := by
  exact ⟨by decide, by decide, by decide⟩

/-- C3 (amended): the expand passed to the remote get-content operation is
exactly `"body.storage"` when the caller supplied no expand; a supplied
non-empty expand not containing `"body.storage"` gets `",body.storage"`
appended; a supplied expand containing `"body.storage"` passes through
unchanged. -/
theorem getContent_expand_normalization (contentId : String) (e : String) :
    getContentCall contentId none = .getContentById contentId "body.storage" ∧
    (e ≠ "" → strIncludes e "body.storage" = false →
      getContentCall contentId (some e) = .getContentById contentId (e ++ ",body.storage")) ∧
    (strIncludes e "body.storage" = true →
      getContentCall contentId (some e) = .getContentById contentId e) := by
  refine ⟨rfl, ?_, ?_⟩
  · intro hne hnc
    simp [getContentCall, getContentFinalExpand, hne, hnc]
  · intro hc
    have hne := strIncludes_bodyStorage_ne_empty e hc
    simp [getContentCall, getContentFinalExpand, jsOrStr, hne, hc]

theorem getContent_expand_normalization_witness :
    getContentCall "42" (some "history") = .getContentById "42" "history,body.storage" ∧
    getContentCall "42" (some "space,body.storage") = .getContentById "42" "space,body.storage" := by
  constructor
  · exact ((getContent_expand_normalization "42" "history").2.1 (by decide) (by decide)).trans
      (by decide)
  · exact (getContent_expand_normalization "42" "space,body.storage").2.2 (by decide)

/-- C9: the `body.storage` test in `getContent` is JS substring containment,
not comma-separated-list membership: an expand containing `"body.storage"`
inside a longer field name (such as `"abody.storagex"`) is passed through
unchanged, and the empty expand string is treated as absent (yielding
exactly `"body.storage"`, not `",body.storage"`). -/
theorem getContent_expand_substring_check :
    strIncludes "abody.storagex" "body.storage" = true ∧
    getContentFinalExpand (some "abody.storagex") = "abody.storagex" ∧
    getContentFinalExpand (some "") = "body.storage" ∧
    ∀ e : String, strIncludes e "body.storage" = true → getContentFinalExpand (some e) = e := by
  refine ⟨by decide, by decide, by decide, ?_⟩
  intro e hc
  have hne := strIncludes_bodyStorage_ne_empty e hc
  simp [getContentFinalExpand, jsOrStr, hne, hc]

theorem getContent_expand_substring_check_witness :
    strIncludes "labels,body.storage" "body.storage" = true ∧
    getContentFinalExpand (some "labels,body.storage") = "labels,body.storage" :=
  ⟨by decide, getContent_expand_substring_check.2.2.2 "labels,body.storage" (by decide)⟩

/-- C4: `searchSpaces` builds the CQL string
`type=space AND title ~ "T"` by verbatim interpolation of the search text
(no escaping of any character, quotes included) and issues it through the
very same `search1` remote operation, with the very same argument layout,
that `searchContent` uses. -/
theorem searchSpaces_cql_shape (t : String) (limit start : Option Nat)
    (expand : Option String) :
    searchSpacesCall t limit start expand =
      .search1 none expand none (limit.map toString) (start.map toString) none
        ("type=space AND title ~ \"" ++ t ++ "\"") ∧
    searchSpacesCall t limit start expand =
      searchContentCall ("type=space AND title ~ \"" ++ t ++ "\"") limit start expand :=
  ⟨rfl, rfl⟩

/-- C5, as stated, fails at an empty `parentCommentId`: the guard
`if (parentCommentId)` treats the supplied empty string as falsy, so
`ancestors` is omitted rather than set to `[{id: ""}]`. -/
theorem addComment_empty_parent_counterexample :
    (addCommentPayload "p1" "<p>hi</p>" (some "")).ancestors = none ∧
    (addCommentPayload "p1" "<p>hi</p>" (some "")).ancestors ≠ some [{ id := "" }] := by
  exact ⟨rfl, by decide⟩

/-- C5 (amended): the payload `addComment` passes to the generic
create-content remote operation has `type = "comment"`,
`container = {id: contentId, type: "page"}` and a storage-wrapped body;
`ancestors` equals `[{id: parentCommentId}]` when a non-empty
`parentCommentId` is supplied and is absent when `parentCommentId` is
absent or empty. -/
theorem addComment_payload_shape (contentId body : String)
    (parentCommentId : Option String) :
    addCommentCall contentId body parentCommentId =
      .createContent (.comment (addCommentPayload contentId body parentCommentId)) ∧
    (addCommentPayload contentId body parentCommentId).type = "comment" ∧
    (addCommentPayload contentId body parentCommentId).container =
      { id := contentId, type := "page" } ∧
    (addCommentPayload contentId body parentCommentId).body =
      { storage := { value := body, representation := "storage" } } ∧
    (∀ p : String, parentCommentId = some p → p ≠ "" →
      (addCommentPayload contentId body parentCommentId).ancestors = some [{ id := p }]) ∧
    (parentCommentId = none ∨ parentCommentId = some "" →
      (addCommentPayload contentId body parentCommentId).ancestors = none) := by
  refine ⟨rfl, rfl, rfl, rfl, ?_, ?_⟩
  · intro p hp hne
    subst hp
    simp [addCommentPayload, hne]
  · rintro (h | h) <;> subst h <;> simp [addCommentPayload]

theorem addComment_payload_shape_witness :
    (addCommentPayload "88" "<p>x</p>" (some "77")).ancestors = some [{ id := "77" }] ∧
    (addCommentPayload "88" "<p>x</p>" none).ancestors = none :=
  ⟨(addComment_payload_shape "88" "<p>x</p>" (some "77")).2.2.2.2.1 "77" rfl (by decide),
   (addComment_payload_shape "88" "<p>x</p>" none).2.2.2.2.2 (Or.inl rfl)⟩

/-- C8: `addLabel` sends the full `{name, prefix}` pair to the remote
add-labels operation, with the prefix defaulting to `"global"` exactly when
the caller omits it (TypeScript default parameter), and equal to the
supplied value otherwise. -/
theorem addLabel_default_global (contentId labelName : String) :
    addLabelCall contentId labelName none =
      .addLabels contentId { name := labelName, pfx := "global" } ∧
    ∀ p : String, addLabelCall contentId labelName (some p) =
      .addLabels contentId { name := labelName, pfx := p } :=
  ⟨rfl, fun _ => rfl⟩

/-- C6, as stated, fails at empty strings: a supplied empty hostname still
makes construction throw (so failure is not equivalent to "neither
supplied"), and a supplied empty full base path is ignored in favor of the
hostname (so the base URL is not that path verbatim). -/
theorem construct_empty_strings_counterexample :
    isConfigError (construct (some "") "tok" none ⟨"", "", ""⟩) = true ∧
    (some "" : Option String) ≠ none ∧
    construct (some "h") "tok" (some "") ⟨"", "", ""⟩ =
      .ok { BASE := "https://h", TOKEN := "tok", VERSION := "1.0" } := by
  refine ⟨rfl, by decide, rfl⟩

/-- C6 (amended): construction throws the configuration error if and only if
both the hostname and the full base API path are absent or empty (JS
truthiness); when a non-empty full base path is supplied the base URL is
that path verbatim regardless of any host value also passed; when the full
base path is absent or empty and a non-empty hostname is supplied, the base
URL is `https://` followed by the hostname. -/
theorem construct_config_rules (host : Option String) (token : String)
    (fullApiUrl : Option String) (st : OpenAPIConfig) :
    (isConfigError (construct host token fullApiUrl st) = true ↔
      jsFalsy host = true ∧ jsFalsy fullApiUrl = true) ∧
    (∀ u : String, fullApiUrl = some u → u ≠ "" →
      construct host token fullApiUrl st =
        .ok { BASE := u, TOKEN := token, VERSION := "1.0" }) ∧
    (∀ hn : String, host = some hn → hn ≠ "" → jsFalsy fullApiUrl = true →
      construct host token fullApiUrl st =
        .ok { BASE := "https://" ++ hn, TOKEN := token, VERSION := "1.0" }) := by
  refine ⟨?_, ?_, ?_⟩
  · cases hu : jsFalsy fullApiUrl <;> cases hh : jsFalsy host <;>
      simp [construct, jsTruthy, isConfigError, hu, hh]
  · intro u hu hne
    subst hu
    simp [construct, jsTruthy, jsFalsy, hne]
  · intro hn hh hne hu
    subst hh
    simp only [construct, jsTruthy, hu]
    simp [jsFalsy, hne]

theorem construct_config_rules_witness :
    isConfigError (construct none "t" none ⟨"", "", ""⟩) = true ∧
    construct (some "h") "t" (some "https://u/wiki/") ⟨"", "", ""⟩ =
      .ok { BASE := "https://u/wiki/", TOKEN := "t", VERSION := "1.0" } ∧
    construct (some "h") "t" none ⟨"", "", ""⟩ =
      .ok { BASE := "https://h", TOKEN := "t", VERSION := "1.0" } :=
  ⟨(construct_config_rules none "t" none ⟨"", "", ""⟩).1.mpr ⟨rfl, rfl⟩,
   (construct_config_rules (some "h") "t" (some "https://u/wiki/") ⟨"", "", ""⟩).2.1
     "https://u/wiki/" rfl (by decide),
   (construct_config_rules (some "h") "t" none ⟨"", "", ""⟩).2.2 "h" rfl (by decide) rfl⟩

/-- C7, as stated, fails at empty-string environment values: with
`CONFLUENCE_HOST` set to the empty string (and no base path), the
host/path-missing entry is still reported even though the variable is set;
and with `CONFLUENCE_API_TOKEN` set to the empty string the configuration
is not accepted, so a "sufficient" configuration in the claim's sense does
not yield the empty list. -/
theorem validateConfig_empty_string_counterexample :
    (Env.mk (some "tok") (some "") none).CONFLUENCE_HOST ≠ none ∧
    validateConfig (Env.mk (some "tok") (some "") none) =
      ["CONFLUENCE_HOST or CONFLUENCE_API_BASE_PATH"] ∧
    validateConfig (Env.mk (some "") (some "h") none) = ["CONFLUENCE_API_TOKEN"] := by
  refine ⟨by decide, rfl, rfl⟩

/-- C7 (amended): `validateConfig` is total (never throws) and returns the
missing-settings list: with nothing set it returns both entries in order;
the token entry is present whenever the token is unset or empty; the
host/path entry is present exactly when both the hostname and the full base
path are unset or empty; and when the token is set non-empty and at least
one of hostname or base path is set non-empty, it returns the empty list. -/
theorem validateConfig_missing_entries (env : Env) :
    validateConfig
      { CONFLUENCE_API_TOKEN := none, CONFLUENCE_HOST := none,
        CONFLUENCE_API_BASE_PATH := none } =
      ["CONFLUENCE_API_TOKEN", "CONFLUENCE_HOST or CONFLUENCE_API_BASE_PATH"] ∧
    (jsFalsy env.CONFLUENCE_API_TOKEN = true →
      "CONFLUENCE_API_TOKEN" ∈ validateConfig env) ∧
    ("CONFLUENCE_HOST or CONFLUENCE_API_BASE_PATH" ∈ validateConfig env ↔
      jsFalsy env.CONFLUENCE_HOST = true ∧ jsFalsy env.CONFLUENCE_API_BASE_PATH = true) ∧
    (jsFalsy env.CONFLUENCE_API_TOKEN = false →
      jsFalsy env.CONFLUENCE_HOST = false ∨ jsFalsy env.CONFLUENCE_API_BASE_PATH = false →
      validateConfig env = []) := by
  obtain ⟨tok, hst, pth⟩ := env
  refine ⟨rfl, ?_, ?_, ?_⟩ <;>
    cases htok : jsFalsy tok <;> cases hhost : jsFalsy hst <;> cases hpath : jsFalsy pth <;>
      simp [validateConfig, htok, hhost, hpath]

theorem validateConfig_missing_entries_witness :
    "CONFLUENCE_API_TOKEN" ∈ validateConfig (Env.mk none (some "h") none) ∧
    validateConfig (Env.mk (some "t") (some "h") none) = [] :=
  ⟨(validateConfig_missing_entries (Env.mk none (some "h") none)).2.1 rfl,
   (validateConfig_missing_entries (Env.mk (some "t") (some "h") none)).2.2.2
     (by decide) (Or.inl (by decide))⟩

theorem construct_state_irrelevant (host : Option String) (token : String)
    (fullApiUrl : Option String) (st st' : OpenAPIConfig) :
    construct host token fullApiUrl st = construct host token fullApiUrl st' := rfl

/-- C10: the constructor writes the connection configuration into the
module-global `OpenAPI` object and stores nothing on the instance: a
successful construction produces a global state independent of whatever was
there before, so after any earlier construction, a second construction
yields exactly the configuration it would yield from any other starting
state — the last constructor call alone determines the configuration every
subsequent remote call uses. -/
theorem construct_global_config_overwrite (host : Option String) (token : String)
    (fullApiUrl : Option String) (st st' cfg : OpenAPIConfig)
    (h : construct host token fullApiUrl st = .ok cfg) :
    construct host token fullApiUrl st' = .ok cfg ∧
    ∀ (host2 : Option String) (token2 : String) (fullApiUrl2 : Option String)
      (cfg2 : OpenAPIConfig),
      construct host2 token2 fullApiUrl2 cfg = .ok cfg2 →
      construct host2 token2 fullApiUrl2 st' = .ok cfg2 := by
  refine ⟨(construct_state_irrelevant host token fullApiUrl st' st).trans h, ?_⟩
  intro host2 token2 fullApiUrl2 cfg2 h2
  exact (construct_state_irrelevant host2 token2 fullApiUrl2 st' cfg).trans h2

theorem construct_global_config_overwrite_witness :
    construct (some "h2") "t2" none ⟨"", "", ""⟩ =
      .ok { BASE := "https://h2", TOKEN := "t2", VERSION := "1.0" } := by
  have h := construct_global_config_overwrite (some "h1") "t1" none
    ⟨"x", "y", "z"⟩ ⟨"", "", ""⟩ { BASE := "https://h1", TOKEN := "t1", VERSION := "1.0" } rfl
  exact h.2 (some "h2") "t2" none { BASE := "https://h2", TOKEN := "t2", VERSION := "1.0" } rfl

theorem retrieveFailMsg_data (contentId : String) (err : Option String) :
    (retrieveFailMsg contentId err).data =
      "Failed to retrieve content".data ++ (" with ID ".data ++ (contentId.data ++
        (": ".data ++ (jsOrStr err "Unknown error").data))) := by
  have hlit : "Failed to retrieve content with ID ".data =
      "Failed to retrieve content".data ++ " with ID ".data := by decide
  simp [retrieveFailMsg, String.data_append, hlit, List.append_assoc]

/-- C1, as stated, fails at an empty caller-supplied title: the merge uses
JS `title || contentData.title`, so a supplied empty title loses to the
fetched title instead of the caller winning. -/
theorem updateContent_title_empty_counterexample :
    outcomeTitle (updateContentTool "123" (some "") none 5 (some "c")
      { success := true,
        data := some { type := "page", title := "Old", space := { key := "X" } },
        error := none }) = some "Old" ∧
    (some "Old" : Option String) ≠ some "" := by
  exact ⟨rfl, by decide⟩

/-- C1 (amended): when the initial fetch succeeds with data, the update tool
issues exactly one write whose payload takes `title` from the caller when
the supplied title is non-empty and from the fetched state otherwise
(absent or empty caller title falls back); takes `type` and `space` always
from the fetched state; takes `version` as `{number: caller version,
message: caller versionComment}`, never from fetched state; and includes a
storage-wrapped `body` exactly when the caller supplied non-empty content
text, omitting the field otherwise. -/
theorem updateContent_merge_rules (contentId : String) (title content : Option String)
    (version : Int) (versionComment : Option String) (fetched : Envelope FetchedData)
    (d : FetchedData) (hs : fetched.success = true) (hd : fetched.data = some d) :
    updateContentTool contentId title content version versionComment fetched =
      .wrote (.update2 contentId
        { id := some contentId
          type := d.type
          title :=
            match title with
            | some t => if t = "" then d.title else t
            | none => d.title
          space := d.space
          body :=
            match content with
            | some c =>
              if c = "" then none
              else some { storage := { value := c, representation := "storage" } }
            | none => none
          version := some { number := version, message := versionComment }
          ancestors := none }) := by
  obtain ⟨s, dat, err⟩ := fetched
  simp only at hs hd
  subst hs
  subst hd
  rfl

theorem updateContent_merge_rules_witness :
    updateContentTool "9" (some "New") (some "<p>n</p>") 5 (some "c")
      { success := true,
        data := some { type := "page", title := "Old", space := { key := "X" } },
        error := none } =
      .wrote (.update2 "9"
        { id := some "9", type := "page", title := "New", space := { key := "X" },
          body := some { storage := { value := "<p>n</p>", representation := "storage" } },
          version := some { number := 5, message := some "c" }, ancestors := none }) := by
  exact updateContent_merge_rules "9" (some "New") (some "<p>n</p>") 5 (some "c")
    { success := true,
      data := some { type := "page", title := "Old", space := { key := "X" } },
      error := none }
    { type := "page", title := "Old", space := { key := "X" } } rfl rfl

/-- C2: when the initial fetch envelope has `success = false` or no data,
the update tool aborts with a failure message that contains
`"Failed to retrieve content"`, contains the content id, and contains the
underlying fetch error when one is present; no write call is issued (the
outcome is `aborted`, which carries no remote call). -/
theorem updateContent_fetch_failure (contentId : String) (title content : Option String)
    (version : Int) (versionComment : Option String) (fetched : Envelope FetchedData)
    (h : fetched.success = false ∨ fetched.data = none) :
    updateContentTool contentId title content version versionComment fetched =
      .aborted (retrieveFailMsg contentId fetched.error) ∧
    strIncludes (retrieveFailMsg contentId fetched.error) "Failed to retrieve content" = true ∧
    strIncludes (retrieveFailMsg contentId fetched.error) contentId = true ∧
    ∀ e : String, fetched.error = some e →
      strIncludes (retrieveFailMsg contentId fetched.error) e = true := by
  refine ⟨?_, ?_, ?_, ?_⟩
  · obtain ⟨s, dat, err⟩ := fetched
    rcases h with h | h
    · simp only at h
      subst h
      rfl
    · simp only at h
      subst h
      cases s <;> rfl
  · refine strIncludes_of_parts _ _ []
      (" with ID ".data ++ (contentId.data ++
        (": ".data ++ (jsOrStr fetched.error "Unknown error").data))) ?_
    exact (retrieveFailMsg_data contentId fetched.error).trans (List.nil_append _).symm
  · refine strIncludes_of_parts _ _
      ("Failed to retrieve content".data ++ " with ID ".data)
      (": ".data ++ (jsOrStr fetched.error "Unknown error").data) ?_
    rw [retrieveFailMsg_data contentId fetched.error]
    simp [List.append_assoc]
  · intro e he
    by_cases h0 : e = ""
    · subst h0
      exact strIncludes_empty_pat _
    · have hE : jsOrStr fetched.error "Unknown error" = e := by
        rw [he]
        simp [jsOrStr, h0]
      refine strIncludes_of_parts _ _
        ("Failed to retrieve content".data ++ (" with ID ".data ++ (contentId.data ++
          ": ".data))) [] ?_
      rw [retrieveFailMsg_data contentId fetched.error, hE]
      simp [List.append_assoc]

theorem updateContent_fetch_failure_witness :
    updateContentTool "777" none none 1 none
      { success := false, data := none, error := some "boom" } =
      .aborted "Failed to retrieve content with ID 777: boom" ∧
    strIncludes "Failed to retrieve content with ID 777: boom"
      "Failed to retrieve content" = true ∧
    strIncludes "Failed to retrieve content with ID 777: boom" "777" = true ∧
    strIncludes "Failed to retrieve content with ID 777: boom" "boom" = true := by
  have h := updateContent_fetch_failure "777" none none 1 none
    { success := false, data := none, error := some "boom" } (Or.inl rfl)
  exact ⟨h.1.trans (by decide), h.2.1.trans (by decide), h.2.2.1.trans (by decide),
    (h.2.2.2 "boom" rfl).trans (by decide)⟩
